import Mathlib

/-!
Verification of the job orchestration and multi-provider generation
coordinator of the ad-generator repository, as a shallow embedding of
the Python sources under src/ad_generator.

Conventions of the embedding:
* Python ints are modelled as Int or Nat, Python floats that carry time
  quantities as Rat (the loops at stake only add and compare them).
* datetime.utcnow() is modelled by an explicit clock argument now : Nat
  supplied to each mutating operation.
* Optional[T] is Option T; a dict field read with .get(key, default)
  where the JSON value itself may be null is modelled Option (Option T)
  (none = key absent, some none = JSON null, some (some v) = value).
* The thread lock of the JobStore serialises every mutation, hence each
  mutating method is a pure function on the store state.
-/

set_option autoImplicit false

namespace AdGen

/-! ## Data model (models.py and api.py) -/

/-- VideoStatus from models.py. -/
inductive VideoStatus where
  | pending
  | processing
  | completed
  | failed
  deriving DecidableEq, Repr

/-- The .value payload of the VideoStatus str-enum. -/
def VideoStatus.value : VideoStatus → String
  | .pending => "pending"
  | .processing => "processing"
  | .completed => "completed"
  | .failed => "failed"

/-- VideoProvider as used by agent.py (VideoProvider.FREEPIK and
VideoProvider.KIE_AI); the variant of models.py shipped under src lacks
the enum itself, so the two members referenced by agent.py are taken
from its usage. -/
inductive VideoProvider where
  | freepik
  | kieAI
  deriving DecidableEq, Repr

/-- VideoGenerationResult from models.py (task_id, status, video_url,
error_message), extended with the provider and local_path fields that
agent.py passes to its constructor. -/
structure VideoGenerationResult where
  taskId : String
  status : VideoStatus
  videoUrl : Option String := none
  errorMessage : Option String := none
  provider : Option VideoProvider := none
  localPath : Option String := none
  deriving DecidableEq, Repr

/-- ProductMetadata from models.py, with the features list used by
metadata_extractor.py. -/
structure ProductMetadata where
  title : String
  description : Option String := none
  images : List String := []
  price : Option String := none
  brand : Option String := none
  features : List String := []
  url : String
  deriving DecidableEq, Repr

/-- JobStage from api.py. -/
inductive JobStage where
  | queued
  | extractingMetadata
  | generatingPrompt
  | generatingVideo
  | completed
  | failed
  deriving DecidableEq, Repr

/-- AgentStatus from api.py. -/
inductive AgentStatus where
  | standby
  | active
  | done
  | failed
  deriving DecidableEq, Repr

/-- AgentStatuses from api.py: one status per pipeline agent. -/
structure AgentStatuses where
  research : AgentStatus := .standby
  content : AgentStatus := .standby
  video : AgentStatus := .standby
  deriving DecidableEq, Repr

/-- LogEntry from api.py; the datetime timestamp is a clock reading. -/
structure LogEntry where
  timestamp : Nat
  source : String
  message : String
  deriving DecidableEq, Repr

/-- JobStatus from api.py. The product field stores the metadata
snapshot (Python keeps it as the model_dump dict of a ProductMetadata). -/
structure JobStatus where
  jobId : String
  productUrl : String
  stage : JobStage
  progressPercent : Int := 0
  message : String := ""
  product : Option ProductMetadata := none
  videoPrompt : Option String := none
  videoPath : Option String := none
  error : Option String := none
  createdAt : Nat
  updatedAt : Nat
  agents : AgentStatuses := {}
  logs : List LogEntry := []
  deriving DecidableEq, Repr

/-! ## JobStore (api.py class JobStore)

The store is the map job_id to record; the Python dict is modelled as a
function into Option JobStatus. -/

/-- The in-memory job map of JobStore. -/
def JobStore := String → Option JobStatus

/-- JobStore.create: insert a fresh QUEUED record under the allocated
id (Python draws the id from uuid4; here it is a parameter). -/
def JobStore.create (s : JobStore) (jobId productUrl : String) (now : Nat) : JobStore :=
  fun i =>
    if i = jobId then
      some { jobId := jobId, productUrl := productUrl, stage := .queued,
             progressPercent := 0, message := "Job queued",
             createdAt := now, updatedAt := now }
    else s i

/-- The kwargs accepted by JobStore.update in api.py: each field of the
record that some caller passes; none means the keyword was not given. -/
structure JobUpdate where
  stage : Option JobStage := none
  progressPercent : Option Int := none
  message : Option String := none
  product : Option (Option ProductMetadata) := none
  videoPrompt : Option (Option String) := none
  videoPath : Option (Option String) := none
  error : Option (Option String) := none
  agents : Option AgentStatuses := none
  deriving DecidableEq, Repr

/-- The body of JobStore.update on one record: setattr for each
provided keyword, then refresh updated_at. -/
def applyUpdate (j : JobStatus) (u : JobUpdate) (now : Nat) : JobStatus :=
  { j with
    stage := u.stage.getD j.stage,
    progressPercent := u.progressPercent.getD j.progressPercent,
    message := u.message.getD j.message,
    product := u.product.getD j.product,
    videoPrompt := u.videoPrompt.getD j.videoPrompt,
    videoPath := u.videoPath.getD j.videoPath,
    error := u.error.getD j.error,
    agents := u.agents.getD j.agents,
    updatedAt := now }

/-- JobStore.update from api.py: under the lock, if the id is known,
merge the fields and refresh updated_at; otherwise do nothing. -/
def JobStore.update (s : JobStore) (jobId : String) (u : JobUpdate) (now : Nat) : JobStore :=
  fun i => if i = jobId then (s jobId).map (fun j => applyUpdate j u now) else s i

/-- The list operation inside JobStore.add_log: append the entry, then
keep only the last 50 when the length exceeds 50 (logs[-50:]). -/
def addLogEntry (logs : List LogEntry) (e : LogEntry) : List LogEntry :=
  if 50 < (logs ++ [e]).length then (logs ++ [e]).drop ((logs ++ [e]).length - 50)
  else logs ++ [e]

/-- JobStore.add_log from api.py: under the lock, if the id is known,
append a timestamped entry and trim to the last 50. -/
def JobStore.addLog (s : JobStore) (jobId source message : String) (now : Nat) : JobStore :=
  fun i =>
    if i = jobId then
      (s jobId).map (fun j =>
        { j with logs := addLogEntry j.logs { timestamp := now, source := source, message := message } })
    else s i

/-- A sequence of add_log calls on one list of logs. -/
def addLogs (logs : List LogEntry) (es : List LogEntry) : List LogEntry :=
  es.foldl addLogEntry logs

/-! ## Store-level add_log sequences (for the log-cap claim) -/

/-- One recorded add_log call: clock reading, source, message. -/
def callEntry (c : Nat × String × String) : LogEntry :=
  { timestamp := c.1, source := c.2.1, message := c.2.2 }

/-- A sequence of JobStore.add_log calls against one job id. -/
def storeAddLogs (s : JobStore) (jobId : String) (calls : List (Nat × String × String)) : JobStore :=
  calls.foldl (fun st c => JobStore.addLog st jobId c.2.1 c.2.2 c.1) s

/-! ## Agent output model (models.py variant used by agent.py) -/

/-- AdScene from models.py (duration as a rational number of seconds). -/
structure AdScene where
  description : String
  durationSeconds : Rat := 2
  narration : Option String := none
  visualNotes : Option String := none
  deriving DecidableEq, Repr

/-- AdScript from models.py. -/
structure AdScript where
  productName : String
  hook : String
  scenes : List AdScene
  callToAction : String
  totalDurationSeconds : Rat := 8
  deriving DecidableEq, Repr

/-- GenerationOutput as constructed by agent.py (product, script,
video_prompt, video_results list, output_dir). -/
structure GenerationOutput where
  product : ProductMetadata
  script : AdScript
  videoPrompt : String
  videoResults : List VideoGenerationResult
  outputDir : String
  deriving DecidableEq, Repr

/-! ## generate_ad final artifact check (agent.py, end of generate_ad)

After the conversation loop agent.py requires self._product_metadata
and self._video_results and otherwise raises RuntimeError; the captured
state is passed in here as arguments. -/

/-- The code after the conversation loop in AdGeneratorAgent.generate_ad:
raise RuntimeError when metadata is missing, then when the recorded
video results list is empty, else assemble the GenerationOutput with
the fixed script skeleton. -/
def generateAdFinalize (metadata : Option ProductMetadata)
    (videoResults : List VideoGenerationResult) (videoPrompt : Option String)
    (outputDir : String) : Except String GenerationOutput :=
  match metadata with
  | none => .error "Failed to extract product metadata"
  | some m =>
    if videoResults.isEmpty then .error "Failed to generate any videos"
    else
      .ok { product := m,
            script := { productName := m.title,
                        hook := "Discover something amazing",
                        scenes := [{ description := "Product showcase",
                                     durationSeconds := 5,
                                     visualNotes := videoPrompt }],
                        callToAction := "Shop now" },
            videoPrompt := videoPrompt.getD "",
            videoResults := videoResults,
            outputDir := outputDir }

/-- Python truthiness of an optional string: None and the empty string
are falsy. -/
def pyTruthy (o : Option String) : Bool :=
  match o with
  | none => false
  | some s => s ≠ ""

/-- The tail of AdGeneratorAgent._generate_kie after wait_for_completion
returns: the recorded result takes status COMPLETED exactly when the
waited result carries a truthy video_url, and FAILED otherwise, and the
local path is populated only in the truthy case. -/
def kiePostWait (waited : VideoGenerationResult) (outputPath : String) : VideoGenerationResult :=
  { taskId := waited.taskId,
    status := if pyTruthy waited.videoUrl then .completed else .failed,
    provider := some .kieAI,
    videoUrl := waited.videoUrl,
    localPath := if pyTruthy waited.videoUrl then some outputPath else none }

/-! ## run_generation_task (api.py)

The background task body. The agent run is abstracted to its outcome:
either the GenerationOutput of generate_ad or the message of the raised
exception; the intermediate on_tool_call and on_tool_result updates
happen inside the opaque agent run and are elided, as they never touch
the final success or failure writes performed here. The clock is one
reading, since the claims at stake do not depend on timestamps. -/

/-- Outcome of the awaited agent.generate_ad call inside the task. -/
inductive AgentRunOutcome where
  | ok (out : GenerationOutput)
  | error (msg : String)
  deriving DecidableEq, Repr

/-- run_generation_task from api.py: the initial status write and log,
then either the COMPLETED finalisation or, for any exception escaping
the try block, the FAILED write (stage FAILED, progress 0, error set)
followed by the error log entry. -/
def runGenerationTask (s : JobStore) (jobId : String) (outcome : AgentRunOutcome)
    (now : Nat) : JobStore :=
  let s1 := JobStore.update s jobId
    { stage := some .extractingMetadata, progressPercent := some 5,
      message := some "Starting generation...",
      agents := some { research := .active } } now
  let s2 := JobStore.addLog s1 jobId "System" "Starting ad generation pipeline" now
  match outcome with
  | .ok out =>
    let videoPath : Option String :=
      match out.videoResults with
      | [] => none
      | r :: _ => r.localPath
    let s3 := JobStore.update s2 jobId
      { stage := some .completed, progressPercent := some 100,
        message := some "Video generation complete!",
        product := some (some out.product),
        videoPrompt := some (some out.videoPrompt),
        videoPath := some videoPath,
        agents := some { research := .done, content := .done, video := .done } } now
    JobStore.addLog s3 jobId "System" "Ad generation completed successfully" now
  | .error e =>
    let s3 := JobStore.update s2 jobId
      { stage := some .failed, progressPercent := some 0,
        message := some "Generation failed", error := some (some e),
        agents := some { research := .failed, content := .failed, video := .failed } } now
    JobStore.addLog s3 jobId "System" ("Error: " ++ e) now

/-! ## Metadata merge (metadata_extractor.py) -/

/-- The prefer_tinyfish helper of _merge_metadata: take the TinyFish
value when it is neither None nor the empty string, else the HTML
value. -/
def preferTinyfish (tf html : Option String) : Option String :=
  match tf with
  | some s => if s ≠ "" then some s else html
  | none => html

/-- The merged title of _merge_metadata: prefer_tinyfish over the two
titles followed by the Python `or` fallback to "Unknown Product" when
the preferred value is empty. -/
def mergedTitle (tfTitle : Option String) (htmlTitle : String) : String :=
  let t := match tfTitle with
    | some s => if s ≠ "" then s else htmlTitle
    | none => htmlTitle
  if t = "" then "Unknown Product" else t

/-- The seen-set loop of _merge_metadata: keep each non-empty string
the first time it appears. -/
def dedupGo (seen : List String) : List String → List String
  | [] => []
  | x :: xs => if x ≠ "" ∧ x ∉ seen then x :: dedupGo (x :: seen) xs else dedupGo seen xs

/-- Deduplication of the concatenated list fields, skipping falsy
(empty) entries, preserving first-seen order. -/
def pyDedup (l : List String) : List String := dedupGo [] l

/-- Spec-side formulation of the list merge, written from the words of
the specification: the union preserving first-seen order, deduplicated
(empty strings skipped as the code skips falsy entries). -/
def firstSeenDedupSpec (l : List String) : List String :=
  l.foldl (fun acc x => if x ≠ "" ∧ x ∉ acc then acc ++ [x] else acc) []

/-- The TinyFish extraction payload as _merge_metadata reads it: the
scalar dict entries title, description, price, brand (a string or JSON
null, both checked only for emptiness) and the two list fields. -/
structure TinyFishData where
  title : Option String := none
  description : Option String := none
  price : Option String := none
  brand : Option String := none
  images : List String := []
  features : List String := []
  deriving DecidableEq, Repr

/-- _merge_metadata from metadata_extractor.py: with no TinyFish data
the HTML metadata passes through; otherwise scalars prefer the
non-empty TinyFish value and the list fields take the deduplicated
union, TinyFish entries first. -/
def mergeMetadata (htmlMetadata : ProductMetadata) (tinyfishData : Option TinyFishData)
    (url : String) : ProductMetadata :=
  match tinyfishData with
  | none => htmlMetadata
  | some d =>
    { title := mergedTitle d.title htmlMetadata.title,
      description := preferTinyfish d.description htmlMetadata.description,
      images := pyDedup (d.images ++ htmlMetadata.images),
      price := preferTinyfish d.price htmlMetadata.price,
      brand := preferTinyfish d.brand htmlMetadata.brand,
      features := pyDedup (d.features ++ htmlMetadata.features),
      url := url }

/-! ## wait_for_completion polling loop

freepik_client.py and kie_client.py share the loop body: check status,
return the result on COMPLETED, raise the provider error on FAILED,
otherwise sleep poll_interval, add it to elapsed, and continue while
elapsed < timeout_seconds; on normal loop exit raise the timeout
error. The poll argument gives the result of the k-th check_status
call; fuel is a recursion bound that is provably never exhausted when
the interval is positive. The Rat component of the result is the
elapsed accumulator at exit, i.e. the total time slept. -/

/-- Exit modes of the polling loop: returned result, provider error
raised on a FAILED poll, timeout error raised on loop exit, and the
never-reached fuel exhaustion marker. -/
inductive WaitOutcome where
  | ok (r : VideoGenerationResult)
  | failedErr (msg : Option String)
  | timedOut
  | fuelOut
  deriving DecidableEq, Repr

/-- The while loop of wait_for_completion. -/
def waitLoop (poll : Nat → VideoGenerationResult) (timeoutSeconds interval : Rat) :
    Nat → Nat → Rat → WaitOutcome × Rat
  | 0, _, elapsed =>
    if elapsed < timeoutSeconds then (.fuelOut, elapsed) else (.timedOut, elapsed)
  | fuel + 1, k, elapsed =>
    if elapsed < timeoutSeconds then
      if (poll k).status = .completed then (.ok (poll k), elapsed)
      else if (poll k).status = .failed then (.failedErr (poll k).errorMessage, elapsed)
      else waitLoop poll timeoutSeconds interval fuel (k + 1) (elapsed + interval)
    else (.timedOut, elapsed)

/-- wait_for_completion: run the loop from elapsed 0 with enough fuel
for every iteration the guard can admit. -/
def waitForCompletion (poll : Nat → VideoGenerationResult)
    (timeoutSeconds interval : Rat) : WaitOutcome × Rat :=
  waitLoop poll timeoutSeconds interval (Nat.ceil (timeoutSeconds / interval) + 1) 0 0

/-! ## The generate_video tool (agent.py, _create_tools)

The tool body awaits the FreePik pipeline inside its own try block,
appends the result on success or records "FreePik: {error}" on a
caught FreePikError, then, when use_veo3 is set, does the same for the
Kie.ai pipeline with the "Kie.ai: {error}" prefix, stores the results
list, and renders the response. One provider pipeline run is abstracted
to its outcome: the recorded result or the caught error message. -/

/-- Outcome of one provider submit-wait-download pipeline. -/
inductive ProviderOutcome where
  | ok (r : VideoGenerationResult)
  | err (msg : String)
  deriving DecidableEq, Repr

/-- Python str.join semantics. -/
def pyJoin (sep : String) : List String → String
  | [] => ""
  | [x] => x
  | x :: y :: ys => x ++ sep ++ pyJoin sep (y :: ys)

/-- The payload returned to the agent by a tool: the text content and
the isError flag. -/
structure ToolResponse where
  text : String
  isError : Bool
  deriving DecidableEq, Repr

/-- Results appended by one provider branch of the tool body. -/
def providerResults : ProviderOutcome → List VideoGenerationResult
  | .ok r => [r]
  | .err _ => []

/-- The results accumulator after both provider branches. -/
def toolResults (f : ProviderOutcome) (useVeo3 : Bool) (k : ProviderOutcome) :
    List VideoGenerationResult :=
  providerResults f ++ (if useVeo3 then providerResults k else [])

/-- The errors accumulator after both provider branches. -/
def toolErrors (f : ProviderOutcome) (useVeo3 : Bool) (k : ProviderOutcome) : List String :=
  (match f with | .ok _ => [] | .err e => ["FreePik: " ++ e]) ++
  (if useVeo3 then (match k with | .ok _ => [] | .err e => ["Kie.ai: " ++ e]) else [])

/-- The provider display name used in the success message. -/
def providerDisplayName (r : VideoGenerationResult) (veo3Quality : Bool) : String :=
  if r.provider = some VideoProvider.freepik then "FreePik WAN 2.6"
  else "Kie.ai Veo 3 " ++ (if veo3Quality then "Quality" else "Fast")

/-- The per-result lines of the success message. -/
def resultLines (veo3Quality : Bool) (r : VideoGenerationResult) : List String :=
  ["\n" ++ providerDisplayName r veo3Quality ++ ":",
   "  Task ID: " ++ r.taskId,
   "  Status: " ++ r.status.value] ++
  (match r.localPath with
   | some p => if p ≠ "" then ["  Saved to: " ++ p] else []
   | none => [])

/-- All lines of the success message, with the warnings line appended
when any provider failed. -/
def successLines (results : List VideoGenerationResult) (errors : List String)
    (veo3Quality : Bool) : List String :=
  ["Video generation completed!"] ++ (results.map (resultLines veo3Quality)).flatten ++
  (if errors.isEmpty then [] else ["\nWarnings: " ++ pyJoin "; " errors])

/-- The generate_video tool body after both provider branches ran:
either the all-failed error payload or the success payload; the second
component is the stored self._video_results list. -/
def generateVideoTool (f : ProviderOutcome) (useVeo3 veo3Quality : Bool)
    (k : ProviderOutcome) : ToolResponse × List VideoGenerationResult :=
  let results := toolResults f useVeo3 k
  let errors := toolErrors f useVeo3 k
  if results.isEmpty then
    ({ text := "All video generations failed: " ++ pyJoin "; " errors, isError := true },
     results)
  else
    ({ text := pyJoin "\n" (successLines results errors veo3Quality), isError := false },
     results)

/-! ## Execution order of the provider pipelines (agent.py)

The tool body contains two await statements in sequence: the FreePik
pipeline is awaited to completion (or to its caught error) before the
line starting the Kie.ai pipeline runs; no task is spawned, so the
network events of the two pipelines cannot interleave. The events of
one pipeline are its submit call, its check_status polls and its
download. -/

/-- One observable network event of a provider pipeline. -/
inductive PipelineEvent where
  | submit (p : VideoProvider)
  | poll (p : VideoProvider) (k : Nat)
  | download (p : VideoProvider)
  deriving DecidableEq, Repr

/-- The provider a pipeline event belongs to. -/
def PipelineEvent.provider : PipelineEvent → VideoProvider
  | .submit p => p
  | .poll p _ => p
  | .download p => p

/-- The event trace of one submit-wait-download pipeline
(_generate_freepik or _generate_kie): the submit, the polls of
wait_for_completion, and the download when a video URL was reached. -/
def providerPipelineTrace (p : VideoProvider) (polls : Nat) (downloads : Bool) :
    List PipelineEvent :=
  [.submit p] ++ (List.range polls).map (PipelineEvent.poll p) ++
  (if downloads then [.download p] else [])

/-- The event trace of the generate_video tool body: the FreePik
pipeline trace followed, when use_veo3 is set, by the Kie.ai pipeline
trace, because each await completes before the next statement runs. -/
def generateVideoTrace (fPolls : Nat) (fDownloads useVeo3 : Bool) (kPolls : Nat)
    (kDownloads : Bool) : List PipelineEvent :=
  providerPipelineTrace .freepik fPolls fDownloads ++
  (if useVeo3 then providerPipelineTrace .kieAI kPolls kDownloads else [])

/-- Does some Kie.ai event precede some FreePik event in the trace?
This is the observable footprint concurrent sibling execution of the
two pipelines would leave. -/
def hasKieBeforeFreepik : List PipelineEvent → Bool
  | [] => false
  | e :: rest =>
    (decide (e.provider = VideoProvider.kieAI) &&
      rest.any (fun e2 => decide (e2.provider = VideoProvider.freepik))) ||
    hasKieBeforeFreepik rest

/-! ## check_status (freepik_client.py and kie_client.py)

The poll of one task. The provider response body is modelled by the
fields check_status reads from it; a field read with .get(key, default)
whose JSON value may itself be null is Option (Option String): none for
an absent key, some none for an explicit null, some (some v) for a
value. -/

/-- First element of a list, as the defensive generated[0] read. -/
def headOption (l : List String) : Option String :=
  match l with
  | [] => none
  | x :: _ => some x

/-- The `if not video_url: video_url = ...` fallback step: keep the
current candidate when it is truthy, else move to the next field. -/
def pyOrOpt (x y : Option String) : Option String := if pyTruthy x then x else y

/-- The task payload of the FreePik status response as check_status
reads it. -/
structure FreepikTaskData where
  status : String := ""
  generated : List String := []
  videoUrl : Option String := none
  outputUrl : Option String := none
  url : Option String := none
  error : Option (Option String) := none
  deriving DecidableEq, Repr

/-- Python str.lower on one character (the provider status vocabulary
is ASCII). -/
def asciiLower (c : Char) : Char :=
  if 65 ≤ c.toNat ∧ c.toNat ≤ 90 then Char.ofNat (c.toNat + 32) else c

/-- Python str.lower over the characters of the string. -/
def pyLower (s : String) : String := String.mk (s.data.map asciiLower)

/-- The status vocabulary mapping of FreePikClient.check_status
(status_str = task_data.get("status", "").lower()). -/
def freepikMapStatus (statusStr : String) : VideoStatus :=
  let s := pyLower statusStr
  if s = "created" ∨ s = "pending" ∨ s = "queued" then .pending
  else if s = "processing" ∨ s = "in_progress" then .processing
  else if s = "completed" ∨ s = "done" ∨ s = "success" then .completed
  else .failed

/-- FreePikClient.check_status on a 200 response: map the status
string, extract the URL through the multi-path fallback chain only on
COMPLETED, and read the error field with default "Unknown error" only
on FAILED. -/
def freepikCheckStatus (taskId : String) (d : FreepikTaskData) : VideoGenerationResult :=
  let status := freepikMapStatus d.status
  { taskId := taskId,
    status := status,
    videoUrl :=
      if status = .completed then
        pyOrOpt (pyOrOpt (pyOrOpt (headOption d.generated) d.videoUrl) d.outputUrl) d.url
      else none,
    errorMessage :=
      if status = .failed then
        match d.error with
        | none => some "Unknown error"
        | some e => e
      else none }

/-- The task payload of the Kie.ai record-info response as check_status
reads it. -/
structure KieTaskData where
  successFlag : Option Int := none
  resultUrls : List String := []
  errorMessage : Option (Option String) := none
  deriving DecidableEq, Repr

/-- KieAIClient.check_status on a code-200 response: successFlag 0 is
PROCESSING, 1 is COMPLETED, everything else FAILED; the URL is
resultUrls[0] only on COMPLETED; the errorMessage field is read with
default "Video generation failed" only on FAILED. -/
def kieCheckStatus (taskId : String) (d : KieTaskData) : VideoGenerationResult :=
  let status : VideoStatus :=
    match d.successFlag with
    | some 0 => .processing
    | some 1 => .completed
    | _ => .failed
  { taskId := taskId,
    status := status,
    videoUrl := if status = .completed then headOption d.resultUrls else none,
    errorMessage :=
      if status = .failed then
        match d.errorMessage with
        | none => some "Video generation failed"
        | some e => e
      else none }

/-! ## Theorems -/

/-! ### Facts about addLogEntry: one call keeps exactly the 50 youngest
entries of the appended sequence (List.rtake n takes the n last). -/

theorem addLogEntry_eq_rtake (logs : List LogEntry) (e : LogEntry) :
    addLogEntry logs e = (logs ++ [e]).rtake 50 := by
  unfold addLogEntry List.rtake
  by_cases h : 50 < (logs ++ [e]).length
  · rw [if_pos h]
  · rw [if_neg h]
    have h0 : (logs ++ [e]).length - 50 = 0 := by omega
    rw [h0, List.drop_zero]

theorem addLogEntry_length (logs : List LogEntry) (e : LogEntry) :
    (addLogEntry logs e).length = min (logs.length + 1) 50 := by
  rw [addLogEntry_eq_rtake]
  unfold List.rtake
  simp [List.length_drop]
  omega

theorem addLogEntry_le_50 (logs : List LogEntry) (e : LogEntry) :
    (addLogEntry logs e).length ≤ 50 := by
  rw [addLogEntry_length]
  omega

/-- Retaking the last n commutes with later appends: trimming early
never changes which entries survive in the end. -/
theorem rtake_append_rtake (l m : List LogEntry) (n : Nat) :
    ((l.rtake n) ++ m).rtake n = (l ++ m).rtake n := by
  rw [List.rtake_eq_reverse_take_reverse, List.rtake_eq_reverse_take_reverse,
    List.rtake_eq_reverse_take_reverse]
  rw [List.reverse_append, List.reverse_append, List.reverse_reverse]
  rw [List.take_append_eq_append_take, List.take_append_eq_append_take]
  congr 2
  rw [List.take_take]
  congr 1
  omega

theorem addLogs_nil (logs : List LogEntry) : addLogs logs [] = logs := rfl

theorem addLogs_cons (logs : List LogEntry) (e : LogEntry) (es : List LogEntry) :
    addLogs logs (e :: es) = addLogs (addLogEntry logs e) es := rfl

/-- A sequence of appends keeps exactly the 50 youngest entries of the
starting log followed by the appended sequence. -/
theorem addLogs_eq_rtake (es logs : List LogEntry) (h : logs.length ≤ 50) :
    addLogs logs es = (logs ++ es).rtake 50 := by
  induction es generalizing logs with
  | nil =>
    unfold List.rtake
    rw [addLogs_nil, List.append_nil]
    have h0 : logs.length - 50 = 0 := by omega
    rw [h0, List.drop_zero]
  | cons e es ih =>
    rw [addLogs_cons, ih (addLogEntry logs e) (addLogEntry_le_50 logs e)]
    rw [addLogEntry_eq_rtake, rtake_append_rtake]
    simp

theorem addLogs_length_le_50 (es logs : List LogEntry) (h : logs.length ≤ 50) :
    (addLogs logs es).length ≤ 50 := by
  rw [addLogs_eq_rtake es logs h]
  unfold List.rtake
  simp [List.length_drop]
  omega

/-- From the empty log, 51 appends leave exactly the tail of the
appended sequence: the oldest entry is dropped and the rest survive in
insertion order. -/
theorem addLogs_fiftyone (es : List LogEntry) (h : es.length = 51) :
    addLogs [] es = es.tail := by
  rw [addLogs_eq_rtake es [] (by simp)]
  unfold List.rtake
  rw [List.nil_append, h]
  norm_num

theorem storeAddLogs_at_id (calls : List (Nat × String × String)) (s : JobStore)
    (jobId : String) (j : JobStatus) (hj : s jobId = some j) :
    storeAddLogs s jobId calls jobId = some { j with logs := addLogs j.logs (calls.map callEntry) } := by
  induction calls generalizing s j with
  | nil =>
    simp [storeAddLogs, addLogs_nil, hj]
  | cons c cs ih =>
    have hstep : (JobStore.addLog s jobId c.2.1 c.2.2 c.1) jobId =
        some { j with logs := addLogEntry j.logs (callEntry c) } := by
      simp [JobStore.addLog, hj, callEntry]
    have := ih (JobStore.addLog s jobId c.2.1 c.2.2 c.1) _ hstep
    simpa [storeAddLogs, addLogs_cons] using this

/-- C1. For every job present in the JobStore and every sequence of
add_log calls on it: starting within the 50-entry cap the log stays
within the cap, and after 51 appends to a fresh (empty) log the
surviving log is exactly the tail of the appended sequence, so the
oldest entry is evicted, the newest entry is the last element, and the
survivors keep their insertion order. -/
theorem c1_log_cap_and_eviction (s : JobStore) (jobId : String) (j : JobStatus)
    (calls : List (Nat × String × String)) (hj : s jobId = some j) :
    ∃ j2, storeAddLogs s jobId calls jobId = some j2 ∧
      j2.logs = addLogs j.logs (calls.map callEntry) ∧
      (j.logs.length ≤ 50 → j2.logs.length ≤ 50) ∧
      (j.logs = [] → calls.length = 51 →
        j2.logs = (calls.map callEntry).tail ∧
        j2.logs.length = 50 ∧
        (∀ e rest, calls.map callEntry = e :: rest → e ∉ rest → e ∉ j2.logs) ∧
        (∀ e front, calls.map callEntry = front ++ [e] → j2.logs.getLast? = some e)) := by
  refine ⟨_, storeAddLogs_at_id calls s jobId j hj, rfl, ?_, ?_⟩
  · intro hle
    exact addLogs_length_le_50 (calls.map callEntry) j.logs hle
  · intro hempty hlen
    have hlen51 : (calls.map callEntry).length = 51 := by
      rw [List.length_map]; exact hlen
    have heq : addLogs j.logs (calls.map callEntry) = (calls.map callEntry).tail := by
      rw [hempty]
      exact addLogs_fiftyone (calls.map callEntry) hlen51
    refine ⟨heq, ?_, ?_, ?_⟩
    · rw [heq, List.length_tail, hlen51]
    · intro e rest hsplit hnotin
      rw [heq, hsplit]
      simpa using hnotin
    · intro e front hsplit
      rw [heq, hsplit]
      have hfront : front ≠ [] := by
        intro hf
        rw [hf] at hsplit
        have : (calls.map callEntry).length = 1 := by rw [hsplit]; rfl
        omega
      obtain ⟨f0, fs, rfl⟩ := List.exists_cons_of_ne_nil hfront
      simp [List.getLast?_concat]

/-- C1 witness: a concrete store holding one fresh job, 51 concrete
add_log calls. -/
theorem c1_log_cap_and_eviction_witness :
    ∃ j2,
      storeAddLogs
        (fun i => if i = "j1" then
          some { jobId := "j1", productUrl := "u", stage := .queued,
                 createdAt := 0, updatedAt := 0 } else none)
        "j1" ((List.range 51).map (fun n => (n, "S", toString n))) "j1" = some j2 ∧
      j2.logs = (((List.range 51).map (fun n => ((n : Nat), "S", toString n))).map callEntry).tail ∧
      j2.logs.length = 50 := by
  obtain ⟨j2, h1, _, _, h4⟩ :=
    c1_log_cap_and_eviction
      (fun i => if i = "j1" then
        some { jobId := "j1", productUrl := "u", stage := .queued,
               createdAt := 0, updatedAt := 0 } else none)
      "j1"
      { jobId := "j1", productUrl := "u", stage := .queued, createdAt := 0, updatedAt := 0 }
      ((List.range 51).map (fun n => (n, "S", toString n)))
      (by simp)
  obtain ⟨ha, hb, _, _⟩ := h4 rfl (by simp)
  exact ⟨j2, h1, ha, hb⟩

/-- C8. JobStore.update with an unknown job id leaves the store
unchanged and signals no error; with a known id it merges exactly the
provided fields into that record, refreshes updated_at, and leaves
every other job untouched. -/
theorem c8_update_semantics (s : JobStore) (jobId : String) (u : JobUpdate) (now : Nat) :
    (s jobId = none → JobStore.update s jobId u now = s) ∧
    (∀ j, s jobId = some j →
      JobStore.update s jobId u now jobId = some (applyUpdate j u now) ∧
      (applyUpdate j u now).updatedAt = now ∧
      (∀ x, u.stage = some x → (applyUpdate j u now).stage = x) ∧
      (u.stage = none → (applyUpdate j u now).stage = j.stage) ∧
      (∀ x, u.progressPercent = some x → (applyUpdate j u now).progressPercent = x) ∧
      (u.progressPercent = none → (applyUpdate j u now).progressPercent = j.progressPercent) ∧
      (∀ x, u.message = some x → (applyUpdate j u now).message = x) ∧
      (u.message = none → (applyUpdate j u now).message = j.message) ∧
      (∀ x, u.product = some x → (applyUpdate j u now).product = x) ∧
      (u.product = none → (applyUpdate j u now).product = j.product) ∧
      (∀ x, u.videoPrompt = some x → (applyUpdate j u now).videoPrompt = x) ∧
      (u.videoPrompt = none → (applyUpdate j u now).videoPrompt = j.videoPrompt) ∧
      (∀ x, u.videoPath = some x → (applyUpdate j u now).videoPath = x) ∧
      (u.videoPath = none → (applyUpdate j u now).videoPath = j.videoPath) ∧
      (∀ x, u.error = some x → (applyUpdate j u now).error = x) ∧
      (u.error = none → (applyUpdate j u now).error = j.error) ∧
      (∀ x, u.agents = some x → (applyUpdate j u now).agents = x) ∧
      (u.agents = none → (applyUpdate j u now).agents = j.agents)) ∧
    (∀ i, i ≠ jobId → JobStore.update s jobId u now i = s i) := by
  refine ⟨?_, ?_, ?_⟩
  · intro hnone
    funext i
    by_cases hi : i = jobId
    · subst hi; simp [JobStore.update, hnone]
    · simp [JobStore.update, hi]
  · intro j hj
    refine ⟨by simp [JobStore.update, hj], rfl, ?_⟩
    constructor
    · intro x hx; simp [applyUpdate, hx]
    constructor
    · intro hx; simp [applyUpdate, hx]
    constructor
    · intro x hx; simp [applyUpdate, hx]
    constructor
    · intro hx; simp [applyUpdate, hx]
    constructor
    · intro x hx; simp [applyUpdate, hx]
    constructor
    · intro hx; simp [applyUpdate, hx]
    constructor
    · intro x hx; simp [applyUpdate, hx]
    constructor
    · intro hx; simp [applyUpdate, hx]
    constructor
    · intro x hx; simp [applyUpdate, hx]
    constructor
    · intro hx; simp [applyUpdate, hx]
    constructor
    · intro x hx; simp [applyUpdate, hx]
    constructor
    · intro hx; simp [applyUpdate, hx]
    constructor
    · intro x hx; simp [applyUpdate, hx]
    constructor
    · intro hx; simp [applyUpdate, hx]
    constructor
    · intro x hx; simp [applyUpdate, hx]
    · intro hx; simp [applyUpdate, hx]
  · intro i hi
    simp [JobStore.update, hi]

/-- C8 witness: one known job updated, an unknown id untouched. -/
theorem c8_update_semantics_witness :
    (JobStore.update (fun _ => none) "ghost" { stage := some .failed } 3 = (fun _ => none)) ∧
    JobStore.update
      (fun i => if i = "j1" then
        some { jobId := "j1", productUrl := "u", stage := .queued,
               createdAt := 0, updatedAt := 0 } else none)
      "j1" { stage := some .completed, progressPercent := some 100 } 7 "j1" =
      some (applyUpdate
        { jobId := "j1", productUrl := "u", stage := .queued, createdAt := 0, updatedAt := 0 }
        { stage := some .completed, progressPercent := some 100 } 7) := by
  constructor
  · exact (c8_update_semantics (fun _ => none) "ghost" { stage := some .failed } 3).1 rfl
  · exact ((c8_update_semantics _ "j1" { stage := some .completed, progressPercent := some 100 } 7).2.1
      _ (by simp)).1

/-- C5. Whenever the background generation task ends in an exception,
the job (present in the store) is left at stage FAILED with
progress_percent 0 and a non-null error message before the task
finishes. -/
theorem c5_failure_marks_job_failed (s : JobStore) (jobId : String) (j : JobStatus)
    (e : String) (now : Nat) (hj : s jobId = some j) :
    ∃ j2, runGenerationTask s jobId (.error e) now jobId = some j2 ∧
      j2.stage = .failed ∧ j2.progressPercent = 0 ∧ j2.error = some e ∧ j2.error ≠ none := by
  unfold runGenerationTask
  simp only [JobStore.addLog, JobStore.update, hj, Option.map_some]
  simp [applyUpdate]

/-- C5 witness: a concrete store with one job and a concrete exception
message. -/
theorem c5_failure_marks_job_failed_witness :
    ∃ j2, runGenerationTask
      (fun i => if i = "j1" then
        some { jobId := "j1", productUrl := "u", stage := .queued,
               createdAt := 0, updatedAt := 0 } else none)
      "j1" (.error "boom") 9 "j1" = some j2 ∧
      j2.stage = .failed ∧ j2.progressPercent = 0 ∧ j2.error = some "boom" := by
  obtain ⟨j2, h1, h2, h3, h4, _⟩ :=
    c5_failure_marks_job_failed
      (fun i => if i = "j1" then
        some { jobId := "j1", productUrl := "u", stage := .queued,
               createdAt := 0, updatedAt := 0 } else none)
      "j1"
      { jobId := "j1", productUrl := "u", stage := .queued, createdAt := 0, updatedAt := 0 }
      "boom" 9 (by simp)
  exact ⟨j2, h1, h2, h3, h4⟩

/-- C6 counterexample. A Kie.ai pipeline whose awaited task came back
COMPLETED without any video URL records a FAILED-status result in
self._video_results without raising; generate_ad then returns a
GenerationOutput although no successful (COMPLETED) generation result
was captured, instead of raising the claimed RuntimeError. -/
theorem c6_counterexample :
    (kiePostWait { taskId := "k1", status := .completed, videoUrl := none } "veo3_k1.mp4").status
      = .failed ∧
    (∀ r, r ∈ [kiePostWait { taskId := "k1", status := .completed, videoUrl := none } "veo3_k1.mp4"]
      → r.status ≠ .completed) ∧
    ∃ out, generateAdFinalize (some { title := "T", url := "u" })
        [kiePostWait { taskId := "k1", status := .completed, videoUrl := none } "veo3_k1.mp4"]
        (some "prompt") "out" = .ok out := by
  refine ⟨rfl, by decide, ⟨_, rfl⟩⟩

/-- C6 (amended). generate_ad raises RuntimeError exactly when the
captured metadata is missing ("Failed to extract product metadata") or
the recorded video-results list is empty ("Failed to generate any
videos"), and returns a GenerationOutput carrying both artifacts iff
metadata and at least one recorded result are present; a recorded
result is a provider pipeline that finished without raising, which in
the Kie.ai completed-without-URL corner has status FAILED. -/
theorem c6_finalize_requires_artifacts (metadata : Option ProductMetadata)
    (videoResults : List VideoGenerationResult) (videoPrompt : Option String)
    (outputDir : String) :
    ((∃ out, generateAdFinalize metadata videoResults videoPrompt outputDir = .ok out) ↔
      metadata.isSome ∧ videoResults ≠ []) ∧
    (metadata = none →
      generateAdFinalize metadata videoResults videoPrompt outputDir =
        .error "Failed to extract product metadata") ∧
    (∀ m, metadata = some m → videoResults = [] →
      generateAdFinalize metadata videoResults videoPrompt outputDir =
        .error "Failed to generate any videos") ∧
    (∀ out, generateAdFinalize metadata videoResults videoPrompt outputDir = .ok out →
      metadata = some out.product ∧ out.videoResults = videoResults) := by
  refine ⟨?_, ?_, ?_, ?_⟩
  · constructor
    · rintro ⟨out, hout⟩
      cases metadata with
      | none => simp [generateAdFinalize] at hout
      | some m =>
        refine ⟨rfl, ?_⟩
        intro hempty
        simp [generateAdFinalize, hempty] at hout
    · rintro ⟨hsome, hne⟩
      cases metadata with
      | none => simp at hsome
      | some m =>
        have hempty : videoResults.isEmpty = false := by
          cases videoResults with
          | nil => cases hne rfl
          | cons a as => rfl
        exact ⟨_, by simp only [generateAdFinalize]; rw [if_neg (by simp [hempty])]⟩
  · intro h; subst h; rfl
  · intro m hm hempty; subst hm; subst hempty; rfl
  · intro out hout
    cases metadata with
    | none => simp [generateAdFinalize] at hout
    | some m =>
      by_cases hempty : videoResults.isEmpty
      · simp [generateAdFinalize, hempty] at hout
      · simp [generateAdFinalize, hempty] at hout
        constructor
        · rw [← hout]
        · rw [← hout]

/-- C6 witness: the amended finalisation at concrete inputs, one per
branch. -/
theorem c6_finalize_requires_artifacts_witness :
    generateAdFinalize none [] none "out" = .error "Failed to extract product metadata" ∧
    generateAdFinalize (some { title := "T", url := "u" }) [] none "out" =
      .error "Failed to generate any videos" ∧
    ∃ out, generateAdFinalize (some { title := "T", url := "u" })
      [{ taskId := "f1", status := .completed }] none "out" = .ok out := by
  refine ⟨?_, ?_, ?_⟩
  · exact (c6_finalize_requires_artifacts none [] none "out").2.1 rfl
  · exact (c6_finalize_requires_artifacts (some { title := "T", url := "u" })
      [] none "out").2.2.1 _ rfl rfl
  · exact (c6_finalize_requires_artifacts (some { title := "T", url := "u" })
      [{ taskId := "f1", status := .completed }] none "out").1.mpr ⟨rfl, by simp⟩

/-- Appending one element to a non-empty joined list appends the
separator and the element. -/
theorem pyJoin_append_singleton (sep x : String) (l : List String) (h : l ≠ []) :
    pyJoin sep (l ++ [x]) = pyJoin sep l ++ sep ++ x := by
  induction l with
  | nil => cases h rfl
  | cons a as ih =>
    cases as with
    | nil => rfl
    | cons b bs =>
      have h2 : (b :: bs : List String) ≠ [] := by simp
      show a ++ sep ++ pyJoin sep ((b :: bs) ++ [x]) =
        a ++ sep ++ pyJoin sep (b :: bs) ++ sep ++ x
      rw [ih h2]
      simp [String.append_assoc]

/-- C3. Aggregation of the generate_video tool over the enabled
providers: the stored results are the per-provider successes in order;
when no provider pipeline succeeded the tool reports an error whose
text joins every per-provider error message; when at least one
succeeded it reports success (isError false) and, if any provider
failed alongside, the text ends with the Warnings line joining those
errors; with one succeeding and one failing provider exactly one
result is recorded and the single warning names the failed provider. -/
theorem c3_generate_video_aggregation (f : ProviderOutcome) (useVeo3 veo3Quality : Bool)
    (k : ProviderOutcome) :
    ((generateVideoTool f useVeo3 veo3Quality k).2 = toolResults f useVeo3 k) ∧
    (toolResults f useVeo3 k = [] →
      (generateVideoTool f useVeo3 veo3Quality k).1.isError = true ∧
      (generateVideoTool f useVeo3 veo3Quality k).1.text =
        "All video generations failed: " ++ pyJoin "; " (toolErrors f useVeo3 k)) ∧
    (toolResults f useVeo3 k ≠ [] →
      (generateVideoTool f useVeo3 veo3Quality k).1.isError = false ∧
      (toolErrors f useVeo3 k ≠ [] →
        ∃ pre, (generateVideoTool f useVeo3 veo3Quality k).1.text =
          pre ++ "\nWarnings: " ++ pyJoin "; " (toolErrors f useVeo3 k))) ∧
    (∀ r e, f = .ok r → useVeo3 = true → k = .err e →
      (generateVideoTool f useVeo3 veo3Quality k).2 = [r] ∧
      toolErrors f useVeo3 k = ["Kie.ai: " ++ e]) ∧
    (∀ r e, f = .err e → useVeo3 = true → k = .ok r →
      (generateVideoTool f useVeo3 veo3Quality k).2 = [r] ∧
      toolErrors f useVeo3 k = ["FreePik: " ++ e]) := by
  refine ⟨?_, ?_, ?_, ?_, ?_⟩
  · simp only [generateVideoTool]
    split <;> rfl
  · intro h
    simp [generateVideoTool, h]
  · intro h
    have hne : (toolResults f useVeo3 k).isEmpty = false := by
      cases htr : toolResults f useVeo3 k with
      | nil => exact absurd htr h
      | cons a as => rfl
    constructor
    · simp [generateVideoTool, hne]
    · intro herr
      have herrne : (toolErrors f useVeo3 k).isEmpty = false := by
        cases hte : toolErrors f useVeo3 k with
        | nil => exact absurd hte herr
        | cons a as => rfl
      refine ⟨pyJoin "\n" ("Video generation completed!" ::
        ((toolResults f useVeo3 k).map (resultLines veo3Quality)).flatten) ++ "\n", ?_⟩
      have hbase : ("Video generation completed!" ::
          ((toolResults f useVeo3 k).map (resultLines veo3Quality)).flatten : List String) ≠ [] := by
        simp
      simp only [generateVideoTool, hne, Bool.false_eq_true, if_false, successLines, herrne,
        List.cons_append, List.nil_append]
      rw [← List.cons_append, pyJoin_append_singleton _ _ _ hbase]
      simp only [String.append_assoc]
  · rintro r e rfl rfl rfl
    exact ⟨rfl, rfl⟩
  · rintro r e rfl rfl rfl
    exact ⟨rfl, rfl⟩

/-- C3 witness: both providers failing, and each one-success
one-failure combination, at concrete inputs. -/
theorem c3_generate_video_aggregation_witness :
    ((generateVideoTool (.err "quota") true false (.err "auth")).1.isError = true ∧
      (generateVideoTool (.err "quota") true false (.err "auth")).1.text =
        "All video generations failed: " ++
          pyJoin "; " (toolErrors (.err "quota") true (.err "auth"))) ∧
    ((generateVideoTool (.ok { taskId := "f1", status := .completed, provider := some .freepik }) true false (.err "auth")).1.isError = false) ∧
    ((generateVideoTool (.ok { taskId := "f1", status := .completed, provider := some .freepik }) true false (.err "auth")).2 =
      [{ taskId := "f1", status := .completed, provider := some .freepik }] ∧
      toolErrors (.ok { taskId := "f1", status := .completed, provider := some .freepik })
        true (.err "auth") = ["Kie.ai: auth"]) := by
  refine ⟨?_, ?_, ?_⟩
  · exact (c3_generate_video_aggregation (.err "quota") true false (.err "auth")).2.1 rfl
  · exact ((c3_generate_video_aggregation (.ok { taskId := "f1", status := .completed, provider := some .freepik }) true false (.err "auth")).2.2.1 (by simp [toolResults, providerResults])).1
  · exact (c3_generate_video_aggregation (.ok { taskId := "f1", status := .completed, provider := some .freepik }) true false (.err "auth")).2.2.2.1 _ "auth" rfl rfl rfl

/-- Every event of one provider pipeline trace belongs to that
provider. -/
theorem providerPipelineTrace_provider (p : VideoProvider) (polls : Nat) (downloads : Bool) :
    ∀ e ∈ providerPipelineTrace p polls downloads, e.provider = p := by
  intro e he
  simp only [providerPipelineTrace, List.mem_append, List.mem_singleton, List.mem_map,
    List.mem_range] at he
  rcases he with (rfl | ⟨j, _, rfl⟩) | hd
  · rfl
  · rfl
  · cases downloads with
    | true => simp at hd; subst hd; rfl
    | false => simp at hd

/-- A trace of Kie.ai events alone contains no Kie.ai event followed by
a FreePik event. -/
theorem hasKieBeforeFreepik_all_kie (l : List PipelineEvent)
    (h : ∀ e ∈ l, e.provider = .kieAI) : hasKieBeforeFreepik l = false := by
  induction l with
  | nil => rfl
  | cons e rest ih =>
    have h1 : hasKieBeforeFreepik rest = false :=
      ih (fun e2 he2 => h e2 (List.mem_cons_of_mem _ he2))
    have h2 : rest.any (fun e2 => decide (e2.provider = VideoProvider.freepik)) = false := by
      rw [List.any_eq_false]
      intro x hx
      simp [h x (List.mem_cons_of_mem _ hx)]
    simp [hasKieBeforeFreepik, h1, h2]

/-- A block of FreePik events followed by a block of Kie.ai events
never shows a Kie.ai event before a FreePik event. -/
theorem hasKieBeforeFreepik_append (l1 l2 : List PipelineEvent)
    (h1 : ∀ e ∈ l1, e.provider = .freepik) (h2 : ∀ e ∈ l2, e.provider = .kieAI) :
    hasKieBeforeFreepik (l1 ++ l2) = false := by
  induction l1 with
  | nil => simpa using hasKieBeforeFreepik_all_kie l2 h2
  | cons e rest ih =>
    have he : e.provider = .freepik := h1 e (List.mem_cons_self _ _)
    have hrest := ih (fun x hx => h1 x (List.mem_cons_of_mem _ hx))
    simp [hasKieBeforeFreepik, he, hrest]

/-- C9 counterexample. In a generate_video invocation with both
providers enabled (two polls each, both downloading), the event trace
is the complete FreePik pipeline followed by the complete Kie.ai
pipeline, and no Kie.ai event ever precedes a FreePik event: the
pipelines do not run concurrently as independent sibling tasks, they
run one after the other. -/
theorem c9_counterexample :
    generateVideoTrace 2 true true 2 true =
      [.submit .freepik, .poll .freepik 0, .poll .freepik 1, .download .freepik,
       .submit .kieAI, .poll .kieAI 0, .poll .kieAI 1, .download .kieAI] ∧
    hasKieBeforeFreepik (generateVideoTrace 2 true true 2 true) = false := by
  constructor
  · rfl
  · rfl

/-- C9 (amended). With both providers enabled the pipelines run
sequentially in a fixed order: every FreePik event precedes every
Kie.ai event in the trace of any invocation. Failure isolation does
hold: a FreePik pipeline that fails (no download) is still followed by
the full Kie.ai pipeline, and whichever provider fails, the surviving
provider still has its result recorded. -/
theorem c9_sequential_fanout_isolated (fPolls kPolls : Nat) (fDownloads kDownloads : Bool) :
    hasKieBeforeFreepik (generateVideoTrace fPolls fDownloads true kPolls kDownloads) = false ∧
    PipelineEvent.submit .kieAI ∈ generateVideoTrace fPolls false true kPolls kDownloads ∧
    (∀ r e veo3Quality, (generateVideoTool (.err e) true veo3Quality (.ok r)).2 = [r]) ∧
    (∀ r e veo3Quality, (generateVideoTool (.ok r) true veo3Quality (.err e)).2 = [r]) := by
  refine ⟨?_, ?_, ?_, ?_⟩
  · have hsplit : generateVideoTrace fPolls fDownloads true kPolls kDownloads =
        providerPipelineTrace .freepik fPolls fDownloads ++
          providerPipelineTrace .kieAI kPolls kDownloads := by
      simp [generateVideoTrace]
    rw [hsplit]
    exact hasKieBeforeFreepik_append _ _
      (providerPipelineTrace_provider _ _ _) (providerPipelineTrace_provider _ _ _)
  · simp [generateVideoTrace, providerPipelineTrace]
  · intro r e veo3Quality
    rfl
  · intro r e veo3Quality
    rfl

/-! ### The polling loop -/

theorem waitLoop_not_lt (poll : Nat → VideoGenerationResult) (t i : Rat) (fuel k : Nat)
    (e : Rat) (h : ¬ e < t) : waitLoop poll t i fuel k e = (.timedOut, e) := by
  cases fuel <;> simp [waitLoop, h]

/-- The loop returns a result only when some poll reported COMPLETED,
and the returned result is that poll. -/
theorem waitLoop_ok (poll : Nat → VideoGenerationResult) (t i : Rat) :
    ∀ (fuel k : Nat) (e : Rat) (r : VideoGenerationResult) (s : Rat),
      waitLoop poll t i fuel k e = (.ok r, s) →
      r.status = .completed ∧ ∃ j, poll j = r := by
  intro fuel
  induction fuel with
  | zero =>
    intro k e r s h
    by_cases he : e < t <;> simp [waitLoop, he] at h
  | succ fuel ih =>
    intro k e r s h
    by_cases he : e < t
    · by_cases hc : (poll k).status = .completed
      · simp only [waitLoop, if_pos he, if_pos hc, Prod.mk.injEq, WaitOutcome.ok.injEq] at h
        exact ⟨h.1 ▸ hc, ⟨k, h.1⟩⟩
      · by_cases hf : (poll k).status = .failed
        · simp [waitLoop, he, hc, hf] at h
        · simp only [waitLoop, if_pos he, if_neg hc, if_neg hf] at h
          exact ih _ _ _ _ h
    · rw [waitLoop_not_lt poll t i (fuel + 1) k e he] at h
      simp at h

/-- When every poll reports a non-terminal status, the loop with enough
fuel raises the timeout error after total sleep of at least the
timeout and strictly less than timeout plus one interval. -/
theorem waitLoop_timeout (poll : Nat → VideoGenerationResult) (t i : Rat) (_hi : 0 < i)
    (hall : ∀ j, (poll j).status ≠ .completed ∧ (poll j).status ≠ .failed) :
    ∀ (fuel k : Nat) (e : Rat), e < t → t - e ≤ i * fuel →
      ∃ s, waitLoop poll t i fuel k e = (.timedOut, s) ∧ t ≤ s ∧ s < t + i := by
  intro fuel
  induction fuel with
  | zero =>
    intro k e he hfuel
    exfalso
    simp at hfuel
    linarith
  | succ fuel ih =>
    intro k e he hfuel
    have hc := (hall k).1
    have hf := (hall k).2
    by_cases he2 : e + i < t
    · have hfuel2 : t - (e + i) ≤ i * fuel := by
        push_cast at hfuel ⊢
        linarith
      obtain ⟨s, hs, hs1, hs2⟩ := ih (k + 1) (e + i) he2 hfuel2
      exact ⟨s, by simp [waitLoop, he, hc, hf, hs], hs1, hs2⟩
    · refine ⟨e + i, ?_, by linarith, by linarith⟩
      have hend := waitLoop_not_lt poll t i fuel (k + 1) (e + i) he2
      simp [waitLoop, he, hc, hf, hend]

/-- When the polls before index m are all non-terminal and poll m
reports FAILED while still inside the timeout window, the loop raises
the provider error of poll m after m sleeps. -/
theorem waitLoop_failed (poll : Nat → VideoGenerationResult) (t i : Rat) (hi : 0 < i) :
    ∀ (m fuel k : Nat) (e : Rat),
      (∀ j, j < m → (poll (k + j)).status ≠ .completed ∧ (poll (k + j)).status ≠ .failed) →
      (poll (k + m)).status = .failed → e + m * i < t → m < fuel →
      waitLoop poll t i fuel k e = (.failedErr (poll (k + m)).errorMessage, e + m * i) := by
  intro m
  induction m with
  | zero =>
    intro fuel k e hprev hfail hlt hfuel
    cases fuel with
    | zero => omega
    | succ fuel =>
      have hf : (poll k).status = .failed := by simpa using hfail
      have he : e < t := by
        push_cast at hlt
        linarith
      have hc : (poll k).status ≠ .completed := by simp [hf]
      simp [waitLoop, he, hc, hf]
  | succ m ih =>
    intro fuel k e hprev hfail hlt hfuel
    cases fuel with
    | zero => omega
    | succ fuel =>
      have hpos : (0 : Rat) < ((m : Rat) + 1) * i := mul_pos (by positivity) hi
      have he : e < t := by
        push_cast at hlt
        linarith
      have hc : (poll k).status ≠ .completed := by
        have := (hprev 0 (Nat.succ_pos m)).1
        simpa using this
      have hf : (poll k).status ≠ .failed := by
        have := (hprev 0 (Nat.succ_pos m)).2
        simpa using this
      have step := ih fuel (k + 1) (e + i)
        (fun j hj => by
          have := hprev (j + 1) (Nat.succ_lt_succ hj)
          rwa [show k + (j + 1) = k + 1 + j by omega] at this)
        (by rwa [show k + 1 + m = k + (m + 1) by omega])
        (by push_cast at hlt ⊢; linarith)
        (Nat.lt_of_succ_lt_succ hfuel)
      have hredux : waitLoop poll t i (fuel + 1) k e = waitLoop poll t i fuel (k + 1) (e + i) := by
        simp [waitLoop, he, hc, hf]
      rw [hredux, step, show k + 1 + m = k + (m + 1) by omega]
      have harith : e + i + (m : Rat) * i = e + ((m : Nat) + 1 : Rat) * i := by ring
      rw [Prod.mk.injEq]
      refine ⟨rfl, ?_⟩
      push_cast
      ring

/-- C2. wait_for_completion (the shared polling loop of the FreePik and
Kie.ai clients) with positive timeout and interval: it returns a result
only when some poll reported COMPLETED; when the first terminal poll
reports FAILED within the window it raises the provider error for that
poll; and when every poll is PROCESSING or PENDING it raises the
timeout error with total sleep at least timeout_seconds and at most
timeout_seconds plus poll_interval. -/
theorem c2_wait_for_completion (poll : Nat → VideoGenerationResult) (t i : Rat)
    (ht : 0 < t) (hi : 0 < i) :
    (∀ r s, waitForCompletion poll t i = (.ok r, s) →
      r.status = .completed ∧ ∃ j, poll j = r) ∧
    (∀ m, (∀ j, j < m → (poll j).status ≠ .completed ∧ (poll j).status ≠ .failed) →
      (poll m).status = .failed → (m : Rat) * i < t →
      waitForCompletion poll t i = (.failedErr (poll m).errorMessage, m * i)) ∧
    ((∀ j, (poll j).status = .processing ∨ (poll j).status = .pending) →
      ∃ s, waitForCompletion poll t i = (.timedOut, s) ∧ t ≤ s ∧ s ≤ t + i) := by
  refine ⟨?_, ?_, ?_⟩
  · intro r s h
    exact waitLoop_ok poll t i _ 0 0 r s h
  · intro m hprev hfail hlt
    have h0 : ∀ j, j < m → (poll (0 + j)).status ≠ .completed ∧ (poll (0 + j)).status ≠ .failed := by
      intro j hj
      simpa using hprev j hj
    have hfail0 : (poll (0 + m)).status = .failed := by simpa using hfail
    have hlt0 : (0 : Rat) + m * i < t := by simpa using hlt
    have hfuel : m < Nat.ceil (t / i) + 1 := by
      have hdiv : (m : Rat) < t / i := (lt_div_iff₀ hi).mpr hlt
      have := Nat.lt_ceil.mpr hdiv
      omega
    have := waitLoop_failed poll t i hi m (Nat.ceil (t / i) + 1) 0 0 h0 hfail0 hlt0 hfuel
    simpa [waitForCompletion] using this
  · intro hall
    have hall2 : ∀ j, (poll j).status ≠ .completed ∧ (poll j).status ≠ .failed := by
      intro j
      rcases hall j with h | h <;> simp [h]
    have hfuel : t - 0 ≤ i * ((Nat.ceil (t / i) + 1 : Nat) : Rat) := by
      have h1 : t / i ≤ (Nat.ceil (t / i) : Rat) := Nat.le_ceil _
      have h2 : t ≤ (Nat.ceil (t / i) : Rat) * i := (div_le_iff₀ hi).mp h1
      push_cast
      nlinarith
    obtain ⟨s, hs, hs1, hs2⟩ :=
      waitLoop_timeout poll t i hi hall2 (Nat.ceil (t / i) + 1) 0 0 ht hfuel
    exact ⟨s, hs, hs1, le_of_lt hs2⟩

/-- C2 witness: a client whose poll always returns PROCESSING, timeout
3 and interval 2: the loop times out after sleeping 4 seconds, between
the timeout and the timeout plus one interval. -/
theorem c2_wait_for_completion_witness :
    ∃ s, waitForCompletion (fun _ => { taskId := "x", status := .processing }) 3 2 =
      (.timedOut, s) ∧ 3 ≤ s ∧ s ≤ 3 + 2 := by
  exact (c2_wait_for_completion (fun _ => { taskId := "x", status := .processing }) 3 2
    (by norm_num) (by norm_num)).2.2 (fun j => Or.inl rfl)

/-! ### check_status field invariants -/

theorem pyTruthy_ne_none (x : Option String) (h : pyTruthy x = true) : x ≠ none := by
  cases x <;> simp [pyTruthy] at h ⊢

theorem pyOrOpt_ne_none (x y : Option String) :
    pyOrOpt x y ≠ none ↔ (pyTruthy x = true ∨ y ≠ none) := by
  unfold pyOrOpt
  by_cases h : pyTruthy x = true
  · simp [h, pyTruthy_ne_none x h]
  · simp [h]

theorem pyTruthy_pyOrOpt (x y : Option String) :
    pyTruthy (pyOrOpt x y) = (pyTruthy x || pyTruthy y) := by
  unfold pyOrOpt
  by_cases h : pyTruthy x = true <;> simp [h]

/-- C7 counterexample. check_status can build a COMPLETED result whose
video URL is null (a completed response with an empty generated array
or empty resultUrls and no fallback field), and a FAILED result whose
error message is null (a response whose error field is an explicit
JSON null): the claimed invariant fails on both sides. -/
theorem c7_counterexample :
    ((freepikCheckStatus "t1" { status := "completed" }).status = .completed ∧
      (freepikCheckStatus "t1" { status := "completed" }).videoUrl = none) ∧
    ((freepikCheckStatus "t1" { status := "error", error := some none }).status = .failed ∧
      (freepikCheckStatus "t1" { status := "error", error := some none }).errorMessage = none) ∧
    ((kieCheckStatus "t2" { successFlag := some 1 }).status = .completed ∧
      (kieCheckStatus "t2" { successFlag := some 1 }).videoUrl = none) := by
  refine ⟨⟨?_, ?_⟩, ⟨?_, ?_⟩, ?_, ?_⟩ <;> decide

/-- C7 (amended). A COMPLETED poll result carries a non-null video URL
whenever the provider response populates at least one of the
recognised URL locations (a non-empty first generated entry, a truthy
video/output/url field for FreePik, a non-empty resultUrls for
Kie.ai); a FAILED poll result carries a non-null error message unless
the response carries an explicit null in its error field, in which
case the read-with-default returns null. -/
theorem c7_result_field_invariants (taskId1 taskId2 : String) (d : FreepikTaskData)
    (d2 : KieTaskData) :
    ((freepikCheckStatus taskId1 d).status = .completed →
      (pyTruthy (headOption d.generated) = true ∨ pyTruthy d.videoUrl = true ∨
        pyTruthy d.outputUrl = true ∨ d.url ≠ none) →
      (freepikCheckStatus taskId1 d).videoUrl ≠ none) ∧
    ((freepikCheckStatus taskId1 d).status = .failed → d.error ≠ some none →
      (freepikCheckStatus taskId1 d).errorMessage ≠ none) ∧
    ((kieCheckStatus taskId2 d2).status = .completed → d2.resultUrls ≠ [] →
      (kieCheckStatus taskId2 d2).videoUrl ≠ none) ∧
    ((kieCheckStatus taskId2 d2).status = .failed → d2.errorMessage ≠ some none →
      (kieCheckStatus taskId2 d2).errorMessage ≠ none) := by
  refine ⟨?_, ?_, ?_, ?_⟩
  · intro hst hcond
    simp only [freepikCheckStatus] at hst ⊢
    rw [if_pos hst, pyOrOpt_ne_none]
    rcases hcond with h | h | h | h
    · left; rw [pyTruthy_pyOrOpt, pyTruthy_pyOrOpt]; simp [h]
    · left; rw [pyTruthy_pyOrOpt, pyTruthy_pyOrOpt]; simp [h]
    · left; rw [pyTruthy_pyOrOpt]; simp [h]
    · right; exact h
  · intro hst herr
    simp only [freepikCheckStatus] at hst ⊢
    rw [if_pos hst]
    rcases he : d.error with _ | e
    · simp
    · cases e with
      | none => exact absurd he herr
      | some s => simp
  · intro hst hne
    simp only [kieCheckStatus] at hst ⊢
    rw [if_pos hst]
    cases hres : d2.resultUrls with
    | nil => exact absurd hres hne
    | cons a as => simp [headOption]
  · intro hst herr
    simp only [kieCheckStatus] at hst ⊢
    rw [if_pos hst]
    rcases he : d2.errorMessage with _ | e
    · simp
    · cases e with
      | none => exact absurd he herr
      | some s => simp

/-- C7 witness: concrete responses for each amended branch. -/
theorem c7_result_field_invariants_witness :
    (freepikCheckStatus "t1" { status := "completed", generated := ["https://cdn/v.mp4"] }).videoUrl ≠ none ∧
    (freepikCheckStatus "t1" { status := "error" }).errorMessage ≠ none ∧
    (kieCheckStatus "t2" { successFlag := some 1, resultUrls := ["u1"] }).videoUrl ≠ none ∧
    (kieCheckStatus "t2" { successFlag := some 2 }).errorMessage ≠ none := by
  refine ⟨?_, ?_, ?_, ?_⟩
  · exact (c7_result_field_invariants "t1" "t2"
      { status := "completed", generated := ["https://cdn/v.mp4"] } {}).1 (by decide) (Or.inl (by decide))
  · exact (c7_result_field_invariants "t1" "t2" { status := "error" } {}).2.1 (by decide) (by simp)
  · exact (c7_result_field_invariants "t1" "t2" {}
      { successFlag := some 1, resultUrls := ["u1"] }).2.2.1 (by decide) (by simp)
  · exact (c7_result_field_invariants "t1" "t2" {} { successFlag := some 2 }).2.2.2 (by decide) (by simp)

/-! ### The deduplicating list merge -/

theorem dedupGo_sublist (l : List String) : ∀ seen, List.Sublist (dedupGo seen l) l := by
  induction l with
  | nil => intro seen; simp [dedupGo]
  | cons a as ih =>
    intro seen
    by_cases h : a ≠ "" ∧ a ∉ seen
    · simp only [dedupGo, if_pos h]
      exact (ih (a :: seen)).cons₂ a
    · simp only [dedupGo, if_neg h]
      exact (ih seen).cons a

theorem mem_dedupGo (l : List String) :
    ∀ (seen : List String) (x : String),
      x ∈ dedupGo seen l ↔ x ∈ l ∧ x ≠ "" ∧ x ∉ seen := by
  induction l with
  | nil => intro seen x; simp [dedupGo]
  | cons a as ih =>
    intro seen x
    by_cases h : a ≠ "" ∧ a ∉ seen
    · simp only [dedupGo, if_pos h, List.mem_cons]
      rw [ih (a :: seen) x]
      constructor
      · rintro (rfl | ⟨hx1, hx2, hx3⟩)
        · exact ⟨Or.inl rfl, h.1, h.2⟩
        · exact ⟨Or.inr hx1, hx2, fun hm => hx3 (List.mem_cons_of_mem a hm)⟩
      · rintro ⟨hmem, hx2, hx3⟩
        by_cases hxa : x = a
        · exact Or.inl hxa
        · rcases hmem with rfl | hxas
          · exact Or.inl rfl
          · exact Or.inr ⟨hxas, hx2, fun hm => (List.mem_cons.mp hm).elim hxa hx3⟩
    · simp only [dedupGo, if_neg h, List.mem_cons]
      rw [ih seen x]
      push_neg at h
      constructor
      · rintro ⟨hxas, hx2, hx3⟩
        exact ⟨Or.inr hxas, hx2, hx3⟩
      · rintro ⟨hmem, hx2, hx3⟩
        rcases hmem with rfl | hxas
        · exact absurd (h hx2) hx3
        · exact ⟨hxas, hx2, hx3⟩

theorem dedupGo_nodup (l : List String) : ∀ seen, (dedupGo seen l).Nodup := by
  induction l with
  | nil => intro seen; simp [dedupGo]
  | cons a as ih =>
    intro seen
    by_cases h : a ≠ "" ∧ a ∉ seen
    · simp only [dedupGo, if_pos h, List.nodup_cons]
      refine ⟨?_, ih (a :: seen)⟩
      intro hmem
      exact ((mem_dedupGo as (a :: seen) a).mp hmem).2.2 (List.mem_cons_self a seen)
    · simp only [dedupGo, if_neg h]
      exact ih seen

theorem dedupGo_foldl (l : List String) :
    ∀ (seen acc : List String), (∀ x, x ∈ seen ↔ x ∈ acc) →
      l.foldl (fun acc x => if x ≠ "" ∧ x ∉ acc then acc ++ [x] else acc) acc =
        acc ++ dedupGo seen l := by
  induction l with
  | nil => intro seen acc h; simp [dedupGo]
  | cons a as ih =>
    intro seen acc h
    by_cases ha : a ≠ "" ∧ a ∉ seen
    · have ha2 : a ≠ "" ∧ a ∉ acc := ⟨ha.1, fun hm => ha.2 ((h a).mpr hm)⟩
      rw [List.foldl_cons, if_pos ha2,
        ih (a :: seen) (acc ++ [a]) (fun x => by simp [List.mem_append, h x, or_comm])]
      simp [dedupGo, ha]
    · have ha2 : ¬(a ≠ "" ∧ a ∉ acc) := fun hc => ha ⟨hc.1, fun hm => hc.2 ((h a).mp hm)⟩
      rw [List.foldl_cons, if_neg ha2, ih seen acc h]
      simp [dedupGo, ha]

/-- The source-side dedup loop equals the spec-side first-seen
deduplicated union. -/
theorem pyDedup_eq_spec (l : List String) : pyDedup l = firstSeenDedupSpec l := by
  unfold pyDedup firstSeenDedupSpec
  have h := dedupGo_foldl l [] [] (by simp)
  simpa using h.symm

/-- C4 counterexample. Both records present, AI title empty and HTML
title empty: the merged title is the placeholder "Unknown Product",
not the HTML value, so the scalar merge is not universally "AI when
non-empty, HTML otherwise". -/
theorem c4_counterexample :
    (mergeMetadata { title := "", url := "u" } (some { title := some "" }) "u").title ≠
      ({ title := "", url := "u" } : ProductMetadata).title ∧
    (mergeMetadata { title := "", url := "u" } (some { title := some "" }) "u").title =
      "Unknown Product" := by
  exact ⟨by decide, rfl⟩

/-- C4 (amended). Scalar fields (title, description, price, brand)
come from the AI source when non-empty and from the HTML source
otherwise, except that an empty HTML title under an empty AI title
becomes the placeholder "Unknown Product"; the list fields are the
deduplicated union in first-seen order, AI entries first, empty
strings skipped. -/
theorem c4_merge_policy (d : TinyFishData) (html : ProductMetadata) (url : String) :
    (∀ s, d.title = some s → s ≠ "" → (mergeMetadata html (some d) url).title = s) ∧
    ((d.title = none ∨ d.title = some "") →
      (mergeMetadata html (some d) url).title =
        (if html.title = "" then "Unknown Product" else html.title)) ∧
    (∀ s, d.description = some s → s ≠ "" →
      (mergeMetadata html (some d) url).description = some s) ∧
    ((d.description = none ∨ d.description = some "") →
      (mergeMetadata html (some d) url).description = html.description) ∧
    (∀ s, d.price = some s → s ≠ "" → (mergeMetadata html (some d) url).price = some s) ∧
    ((d.price = none ∨ d.price = some "") →
      (mergeMetadata html (some d) url).price = html.price) ∧
    (∀ s, d.brand = some s → s ≠ "" → (mergeMetadata html (some d) url).brand = some s) ∧
    ((d.brand = none ∨ d.brand = some "") →
      (mergeMetadata html (some d) url).brand = html.brand) ∧
    (mergeMetadata html (some d) url).images = firstSeenDedupSpec (d.images ++ html.images) ∧
    (mergeMetadata html (some d) url).features =
      firstSeenDedupSpec (d.features ++ html.features) ∧
    (mergeMetadata html (some d) url).images.Nodup ∧
    List.Sublist (mergeMetadata html (some d) url).images (d.images ++ html.images) ∧
    (∀ x, x ∈ (mergeMetadata html (some d) url).images ↔
      (x ∈ d.images ∨ x ∈ html.images) ∧ x ≠ "") := by
  refine ⟨?_, ?_, ?_, ?_, ?_, ?_, ?_, ?_, ?_, ?_, ?_, ?_, ?_⟩
  · intro s hs hne
    simp [mergeMetadata, mergedTitle, hs, hne]
  · rintro (h | h) <;> simp [mergeMetadata, mergedTitle, h]
  · intro s hs hne
    simp [mergeMetadata, preferTinyfish, hs, hne]
  · rintro (h | h) <;> simp [mergeMetadata, preferTinyfish, h]
  · intro s hs hne
    simp [mergeMetadata, preferTinyfish, hs, hne]
  · rintro (h | h) <;> simp [mergeMetadata, preferTinyfish, h]
  · intro s hs hne
    simp [mergeMetadata, preferTinyfish, hs, hne]
  · rintro (h | h) <;> simp [mergeMetadata, preferTinyfish, h]
  · simp only [mergeMetadata]
    exact pyDedup_eq_spec _
  · simp only [mergeMetadata]
    exact pyDedup_eq_spec _
  · simp only [mergeMetadata]
    exact dedupGo_nodup _ []
  · simp only [mergeMetadata]
    exact dedupGo_sublist _ []
  · intro x
    simp only [mergeMetadata, pyDedup]
    rw [mem_dedupGo]
    simp [List.mem_append]

/-- C4 witness: the two concrete examples of the claim, through the
amended theorem. -/
theorem c4_merge_policy_witness :
    (mergeMetadata { title := "X", url := "u" } (some { title := some "" }) "u").title = "X" ∧
    (mergeMetadata { title := "T", images := ["a", "b"], url := "u" } (some { title := some "tf", images := ["a"] }) "u").images = ["a", "b"] := by
  constructor
  · have h := (c4_merge_policy { title := some "" } { title := "X", url := "u" } "u").2.1
      (Or.inr rfl)
    simpa using h
  · have h := (c4_merge_policy { title := some "tf", images := ["a"] } { title := "T", images := ["a", "b"], url := "u" } "u").2.2.2.2.2.2.2.2.1
    rw [h]
    rfl

/-- C10. With the AI record present the merged ProductMetadata always
has a non-empty title, and when the AI title and the HTML title are
both empty it is exactly the literal placeholder "Unknown Product". -/
theorem c10_title_placeholder (d : TinyFishData) (html : ProductMetadata) (url : String) :
    (mergeMetadata html (some d) url).title ≠ "" ∧
    ((d.title = none ∨ d.title = some "") → html.title = "" →
      (mergeMetadata html (some d) url).title = "Unknown Product") := by
  constructor
  · simp only [mergeMetadata, mergedTitle]
    split
    · decide
    · assumption
  · intro h1 h2
    rcases h1 with h | h <;> simp [mergeMetadata, mergedTitle, h, h2]

/-- C10 witness: both titles empty at a concrete input. -/
theorem c10_title_placeholder_witness :
    (mergeMetadata { title := "", url := "u" } (some { description := some "D" }) "u").title =
      "Unknown Product" ∧
    (mergeMetadata { title := "", url := "u" } (some { description := some "D" }) "u").title ≠ "" := by
  have h := c10_title_placeholder { description := some "D" } { title := "", url := "u" } "u"
  exact ⟨h.2 (Or.inl rfl) rfl, h.1⟩

end AdGen
